import Mathlib

/-!
Verification of the Disobey 2026 badge tutorial firmware demos.

The development shallowly embeds the pure parts of the three step binaries
(step_03_tasks.rs, step_04_buttons.rs, step_05_display.rs): the button-press
event type, the LED palette lookup, the button dispatcher's index-to-event
mapping, the display task's owl-position update and the primitive draw calls
it issues, the pub/sub registration bookkeeping, and the cycling rainbow
iterator of the tasks demo. Machine integers are modelled as Int with the
i32 saturation bounds made explicit.
-/

/-- The nine button-press event variants of step_04_buttons.rs and
step_05_display.rs. -/
inductive ButtonPressEvent where
  | Up
  | Down
  | Left
  | Right
  | Stick
  | A
  | B
  | Start
  | Select
deriving DecidableEq

/-- An sRGB color with 8-bit components, as palette::rgb::Rgb<Srgb, u8>.
Component values in the source are literals below 256, so plain Nat fields
suffice. -/
structure Rgb where
  red : Nat
  green : Nat
  blue : Nat
deriving DecidableEq

/-- Rgb::new from the palette crate. -/
def Rgb.new (r g b : Nat) : Rgb := ⟨r, g, b⟩

/-- PALETTE: the nine-entry LED color table, identical in step_04_buttons.rs
and step_05_display.rs. -/
def PALETTE : List Rgb :=
  [Rgb.new 80 0 0, Rgb.new 80 80 0, Rgb.new 0 80 0, Rgb.new 0 80 80,
   Rgb.new 0 0 80, Rgb.new 80 0 80, Rgb.new 80 80 80, Rgb.new 0 0 0,
   Rgb.new 120 60 30]

/-- The exhaustive match in led_task mapping each event variant to a PALETTE
entry (step_05_display.rs lines 78-88, same in step_04_buttons.rs). -/
def led_task_color : ButtonPressEvent → Rgb
  | .Up => PALETTE.get ⟨0, by decide⟩
  | .Down => PALETTE.get ⟨1, by decide⟩
  | .Left => PALETTE.get ⟨2, by decide⟩
  | .Right => PALETTE.get ⟨3, by decide⟩
  | .Stick => PALETTE.get ⟨4, by decide⟩
  | .A => PALETTE.get ⟨5, by decide⟩
  | .B => PALETTE.get ⟨6, by decide⟩
  | .Start => PALETTE.get ⟨7, by decide⟩
  | .Select => PALETTE.get ⟨8, by decide⟩

/-- Modelled from the spec: Leds::fill lives in the badge support crate, which
is not among the source files; the spec says the LED responder "writes the
color into every LED cell". The strip is modelled as a list of cells. -/
def leds_fill (cells : List Rgb) (color : Rgb) : List Rgb :=
  cells.map fun _ => color

/-- A display color (embedded_graphics Rgb565), by its raw channel values. -/
structure Rgb565 where
  r5 : Nat
  g6 : Nat
  b5 : Nat
deriving DecidableEq

/-- Rgb565::BLACK. -/
def Rgb565.BLACK : Rgb565 := ⟨0, 0, 0⟩

/-- Rgb565::WHITE. -/
def Rgb565.WHITE : Rgb565 := ⟨31, 63, 31⟩

/-- embedded_graphics Point: signed pixel coordinates. -/
structure Point where
  x : Int
  y : Int
deriving DecidableEq

/-- embedded_graphics Size: unsigned width and height. -/
structure Size where
  width : Nat
  height : Nat
deriving DecidableEq

/-- One primitive draw call issued by display_task in its event loop:
a solid rectangle fill, a stroked circle (top-left corner and diameter), or
a stroked line. -/
inductive DrawOp where
  | fillSolid (topLeft : Point) (size : Size) (color : Rgb565)
  | strokeCircle (topLeft : Point) (diameter : Nat) (color : Rgb565) (strokeWidth : Nat)
  | strokeLine (a b : Point) (color : Rgb565) (strokeWidth : Nat)
deriving DecidableEq

/-- OWL_BODY_DIAMETER from display_task. -/
def OWL_BODY_DIAMETER : Nat := 80

/-- OWL_HEAD_DIAMETER from display_task. -/
def OWL_HEAD_DIAMETER : Nat := 50

/-- OWL_BEAK_Y from display_task. -/
def OWL_BEAK_Y : Int := 42

/-- OWL_BEAK_DISTANCE_X from display_task. -/
def OWL_BEAK_DISTANCE_X : Int := 7

/-- OWL_BEAK_DISTANCE_Y from display_task. -/
def OWL_BEAK_DISTANCE_Y : Int := 10

/-- OWL_EYE_DIAMETER from display_task. -/
def OWL_EYE_DIAMETER : Nat := 12

/-- OWL_EYE_Y from display_task. -/
def OWL_EYE_Y : Int := 20

/-- OWL_EYE_DISTANCE_X from display_task. -/
def OWL_EYE_DISTANCE_X : Int := 3

/-- OWL_MIN_X from display_task. -/
def OWL_MIN_X : Int := 0

/-- OWL_MAX_X = 320 - OWL_BODY_DIAMETER as i32 (the screen is 320 wide). -/
def OWL_MAX_X : Int := 320 - (OWL_BODY_DIAMETER : Int)

/-- OWL_Y from display_task. -/
def OWL_Y : Int := 10

/-- The initial owl position: 160 - OWL_BODY_DIAMETER as i32 / 2. -/
def owl_x_init : Int := 160 - (OWL_BODY_DIAMETER : Int) / 2

/-- i32::MIN. -/
def i32_MIN : Int := -2147483648

/-- i32::MAX. -/
def i32_MAX : Int := 2147483647

/-- i32::saturating_sub: exact subtraction clamped to the i32 range. -/
def saturating_sub (a b : Int) : Int := max i32_MIN (min i32_MAX (a - b))

/-- i32::saturating_add: exact addition clamped to the i32 range. -/
def saturating_add (a b : Int) : Int := max i32_MIN (min i32_MAX (a + b))

/-- The owl position update performed by display_task on one received event
(step_05_display.rs lines 178-186): Left saturating-decrements then clamps to
OWL_MIN_X, Right saturating-increments then clamps to OWL_MAX_X, every other
variant leaves the position untouched. -/
def owl_x_step (owl_x : Int) : ButtonPressEvent → Int
  | .Left => max (saturating_sub owl_x 1) OWL_MIN_X
  | .Right => min (saturating_add owl_x 1) OWL_MAX_X
  | _ => owl_x

/-- owl_head_middle_x as computed in display_task from the updated owl_x. -/
def owl_head_middle_x (owl_x : Int) : Int :=
  owl_x + ((OWL_BODY_DIAMETER : Int) - (OWL_HEAD_DIAMETER : Int)) / 2
    + (OWL_HEAD_DIAMETER : Int) / 2

/-- The draw calls display_task issues after an effective position change, in
source order (step_05_display.rs lines 192-258). Every call, including the
clear rectangle that the comment above it labels the old owl position, is
computed from the variable owl_x, which at that point already holds the
updated position. -/
def owl_frame_ops (owl_x : Int) : List DrawOp :=
  [DrawOp.fillSolid ⟨owl_x, OWL_Y⟩
     ⟨OWL_BODY_DIAMETER, OWL_BODY_DIAMETER + OWL_HEAD_DIAMETER⟩ Rgb565.BLACK,
   DrawOp.strokeCircle ⟨owl_x, OWL_Y + (OWL_HEAD_DIAMETER : Int)⟩
     OWL_BODY_DIAMETER Rgb565.WHITE 1,
   DrawOp.strokeCircle
     ⟨owl_x + ((OWL_BODY_DIAMETER : Int) - (OWL_HEAD_DIAMETER : Int)) / 2, OWL_Y⟩
     OWL_HEAD_DIAMETER Rgb565.WHITE 1,
   DrawOp.strokeCircle
     ⟨owl_head_middle_x owl_x - OWL_EYE_DISTANCE_X - (OWL_EYE_DIAMETER : Int), OWL_EYE_Y⟩
     OWL_EYE_DIAMETER Rgb565.WHITE 1,
   DrawOp.strokeCircle ⟨owl_head_middle_x owl_x + OWL_EYE_DISTANCE_X, OWL_EYE_Y⟩
     OWL_EYE_DIAMETER Rgb565.WHITE 1,
   DrawOp.strokeLine ⟨owl_head_middle_x owl_x - OWL_BEAK_DISTANCE_X, OWL_BEAK_Y⟩
     ⟨owl_head_middle_x owl_x, OWL_BEAK_Y + OWL_BEAK_DISTANCE_Y⟩ Rgb565.WHITE 1,
   DrawOp.strokeLine ⟨owl_head_middle_x owl_x + OWL_BEAK_DISTANCE_X, OWL_BEAK_Y⟩
     ⟨owl_head_middle_x owl_x, OWL_BEAK_Y + OWL_BEAK_DISTANCE_Y⟩ Rgb565.WHITE 1,
   DrawOp.strokeLine ⟨owl_head_middle_x owl_x - OWL_BEAK_DISTANCE_X, OWL_BEAK_Y⟩
     ⟨owl_head_middle_x owl_x + OWL_BEAK_DISTANCE_X, OWL_BEAK_Y⟩ Rgb565.WHITE 1]

/-- One iteration of display_task's event loop (step_05_display.rs lines
175-259): the new owl_x and the draw calls issued for the received event.
When the update leaves the position unchanged the loop continues without
drawing; otherwise it issues the clear rectangle and the owl primitives, all
at the updated owl_x. -/
def display_task_step (owl_x : Int) (event : ButtonPressEvent) : Int × List DrawOp :=
  let old_owl_x := owl_x
  let new_owl_x := owl_x_step owl_x event
  if new_owl_x = old_owl_x then (new_owl_x, [])
  else (new_owl_x, owl_frame_ops new_owl_x)

/-- button_task's match on the completion index of select_array over the nine
debounced button futures (step_05_display.rs lines 113-124, same in
step_04_buttons.rs): the event published for each index, with none standing
for the final unreachable arm. -/
def button_task_dispatch : Nat → Option ButtonPressEvent
  | 0 => some .Up
  | 1 => some .Down
  | 2 => some .Left
  | 3 => some .Right
  | 4 => some .Stick
  | 5 => some .A
  | 6 => some .B
  | 7 => some .Start
  | 8 => some .Select
  | _ => none

/-- Registration state of an embassy-sync PubSubChannel: how many subscriber
slots and publisher slots are currently taken. -/
structure PubSubRegState where
  subs : Nat
  pubs : Nat
deriving DecidableEq

/-- PubSubChannel::subscriber with SUBS slots: succeeds while fewer than
maxSubs subscribers are registered, and errors once the fixed capacity is
exhausted. -/
def pubsub_subscriber (maxSubs : Nat) (st : PubSubRegState) : Option PubSubRegState :=
  if st.subs < maxSubs then some { st with subs := st.subs + 1 } else none

/-- PubSubChannel::publisher with PUBS slots: succeeds while fewer than
maxPubs publishers are registered. -/
def pubsub_publisher (maxPubs : Nat) (st : PubSubRegState) : Option PubSubRegState :=
  if st.pubs < maxPubs then some { st with pubs := st.pubs + 1 } else none

/-- The registrations performed in order by step_05_display.rs main on
BUTTON_CHANNEL : PubSubChannel<_, _, 8, 3, 1>: three subscribers (main's own,
led_task's, display_task's) then button_task's publisher. -/
def step_05_registrations : Option PubSubRegState :=
  (((pubsub_subscriber 3 ⟨0, 0⟩).bind (pubsub_subscriber 3)).bind
      (pubsub_subscriber 3)).bind (pubsub_publisher 1)

/-- The registrations performed in order by step_04_buttons.rs main on
BUTTON_CHANNEL : PubSubChannel<_, _, 8, 2, 1>: two subscribers (main's own,
led_task's) then button_task's publisher. -/
def step_04_registrations : Option PubSubRegState :=
  ((pubsub_subscriber 2 ⟨0, 0⟩).bind (pubsub_subscriber 2)).bind (pubsub_publisher 1)

/-- RAINBOW: the six-entry color table of step_03_tasks.rs. -/
def RAINBOW : List Rgb :=
  [Rgb.new 80 0 0, Rgb.new 80 80 0, Rgb.new 0 80 0,
   Rgb.new 0 80 80, Rgb.new 0 0 80, Rgb.new 80 0 80]

/-- One call to core::iter::Cycle::next over a slice iterator: yields the head
of the remaining items, restarting from the original list when they are
exhausted; yields none only when the original list is empty. Returns the
yielded item and the new remaining state. -/
def cycle_next (orig st : List Rgb) : Option Rgb × List Rgb :=
  match st with
  | [] =>
    match orig with
    | [] => (none, [])
    | x :: xs => (some x, xs)
  | x :: xs => (some x, xs)

/-- The value the cycling iterator yields on iteration n (0-based) when its
remaining state is st, as consumed by led_task in step_03_tasks.rs. -/
def cycle_nth (orig st : List Rgb) : Nat → Option Rgb
  | 0 => (cycle_next orig st).1
  | n + 1 => cycle_nth orig (cycle_next orig st).2 n

/-! ## Helper lemmas -/

/-- A single position update keeps the owl inside [OWL_MIN_X, OWL_MAX_X]. -/
lemma owl_x_step_bounds (x : Int) (e : ButtonPressEvent)
    (h0 : 0 ≤ x) (h1 : x ≤ OWL_MAX_X) :
    0 ≤ owl_x_step x e ∧ owl_x_step x e ≤ OWL_MAX_X := by
  cases e <;>
    simp only [owl_x_step, saturating_sub, saturating_add, OWL_MIN_X, OWL_MAX_X,
      OWL_BODY_DIAMETER, i32_MIN, i32_MAX] at * <;>
    omega

/-- Folding the position update over any event list keeps the owl inside
[0, OWL_MAX_X], from any start inside that range. -/
lemma foldl_owl_x_bounds (evs : List ButtonPressEvent) : ∀ x : Int,
    0 ≤ x → x ≤ OWL_MAX_X →
    0 ≤ List.foldl owl_x_step x evs ∧ List.foldl owl_x_step x evs ≤ OWL_MAX_X := by
  induction evs with
  | nil => intro x h0 h1; exact ⟨h0, h1⟩
  | cons e l ih =>
    intro x h0 h1
    have hb := owl_x_step_bounds x e h0 h1
    simpa [List.foldl_cons] using ih (owl_x_step x e) hb.1 hb.2

/-- Filling the strip writes the one color into every cell. -/
lemma leds_fill_all_eq (cells : List Rgb) (c : Rgb) :
    (leds_fill cells c).all (fun x => x == c) = true := by
  simp [leds_fill]

/-- One cycle step from a suffix state of RAINBOW: yields the element at the
wrapped index and leaves the next suffix as state. -/
lemma cycle_next_drop (k : Nat) (hk : k ≤ 6) :
    cycle_next RAINBOW (RAINBOW.drop k) =
      (RAINBOW[k % 6]?, RAINBOW.drop (k % 6 + 1)) := by
  interval_cases k <;> rfl

/-- The n-th cycle output from the suffix state RAINBOW.drop k is the RAINBOW
entry at index (k + n) mod 6. -/
lemma cycle_nth_drop (n : Nat) : ∀ k : Nat, k ≤ 6 →
    cycle_nth RAINBOW (RAINBOW.drop k) n = RAINBOW[(k + n) % 6]? := by
  induction n with
  | zero =>
    intro k hk
    show (cycle_next RAINBOW (RAINBOW.drop k)).1 = _
    rw [cycle_next_drop k hk]
    have hmod : (k + 0) % 6 = k % 6 := by omega
    rw [hmod]
  | succ n ih =>
    intro k hk
    show cycle_nth RAINBOW (cycle_next RAINBOW (RAINBOW.drop k)).2 n = _
    rw [cycle_next_drop k hk]
    have h2 : k % 6 + 1 ≤ 6 := by omega
    have h3 := ih (k % 6 + 1) h2
    dsimp only at h3 ⊢
    rw [h3]
    have hmod : (k % 6 + 1 + n) % 6 = (k + (n + 1)) % 6 := by omega
    rw [hmod]

/-- Folding n Right events from a position inside [0, OWL_MAX_X] lands at
min (x + n) OWL_MAX_X. -/
lemma foldl_replicate_right : ∀ (n : Nat) (x : Int), 0 ≤ x → x ≤ OWL_MAX_X →
    List.foldl owl_x_step x (List.replicate n ButtonPressEvent.Right) =
      min (x + (n : Int)) OWL_MAX_X := by
  intro n
  induction n with
  | zero =>
    intro x h0 h1
    simp only [List.replicate, List.foldl_nil, Nat.cast_zero, add_zero]
    simp only [OWL_MAX_X, OWL_BODY_DIAMETER] at *
    omega
  | succ n ih =>
    intro x h0 h1
    rw [List.replicate_succ, List.foldl_cons]
    have hb := owl_x_step_bounds x ButtonPressEvent.Right h0 h1
    rw [ih (owl_x_step x ButtonPressEvent.Right) hb.1 hb.2]
    simp only [owl_x_step, saturating_add, OWL_MAX_X, OWL_BODY_DIAMETER,
      i32_MIN, i32_MAX] at *
    push_cast
    omega

/-! ## Claims -/

/-- Claim C1: the spec states that on an effective position change the frame
region at the previous owl position is erased before redrawing. The code does
not do this: at position 120 a Right event moves the owl to 121 and the clear
rectangle is issued at the new x = 121 (first draw call), while no fill at the
previous x = 120 is issued at all, contradicting the source's own comment
above the clear call. -/
theorem claim_C1_clear_rect_at_new_position :
    (display_task_step 120 ButtonPressEvent.Right).1 = 121 ∧
    (display_task_step 120 ButtonPressEvent.Right).2.head? =
      some (DrawOp.fillSolid ⟨121, OWL_Y⟩
        ⟨OWL_BODY_DIAMETER, OWL_BODY_DIAMETER + OWL_HEAD_DIAMETER⟩ Rgb565.BLACK) ∧
    ((display_task_step 120 ButtonPressEvent.Right).2.contains
      (DrawOp.fillSolid ⟨120, OWL_Y⟩
        ⟨OWL_BODY_DIAMETER, OWL_BODY_DIAMETER + OWL_HEAD_DIAMETER⟩ Rgb565.BLACK)) = false := by
  decide

/-- Claim C2: from the initial position 120, after any finite sequence of
events the owl position stays within [0, OWL_MAX_X], and OWL_MAX_X = 240
(since any prefix of a sequence is itself a sequence, this bounds every
intermediate step as well). -/
theorem claim_C2_owl_x_bounded (evs : List ButtonPressEvent) :
    0 ≤ List.foldl owl_x_step owl_x_init evs ∧
    List.foldl owl_x_step owl_x_init evs ≤ OWL_MAX_X ∧ OWL_MAX_X = 240 := by
  have h := foldl_owl_x_bounds evs owl_x_init (by decide) (by decide)
  exact ⟨h.1, h.2, by decide⟩

/-- Claim C3: over the whole i32 range, a Left event maps the position to
max (x - 1) 0 and a Right event maps it to min (x + 1) 240; in particular
Left at 0 and Right at 240 leave the position unchanged. -/
theorem claim_C3_step_formula (x : Int) (h1 : i32_MIN ≤ x) (h2 : x ≤ i32_MAX) :
    owl_x_step x ButtonPressEvent.Left = max (x - 1) 0 ∧
    owl_x_step x ButtonPressEvent.Right = min (x + 1) 240 := by
  simp only [owl_x_step, saturating_sub, saturating_add, OWL_MIN_X, OWL_MAX_X,
    OWL_BODY_DIAMETER, i32_MIN, i32_MAX] at *
  omega

/-- Witness for claim C3 at the concrete boundary position 0. -/
theorem claim_C3_witness :
    owl_x_step 0 ButtonPressEvent.Left = max (0 - 1) 0 ∧
    owl_x_step 0 ButtonPressEvent.Right = min (0 + 1) 240 :=
  claim_C3_step_formula 0 (by decide) (by decide)

/-- Claim C4: from the initial position 120, processing 200 Right events ends
at position 240, not 320. -/
theorem claim_C4_two_hundred_rights :
    List.foldl owl_x_step owl_x_init (List.replicate 200 ButtonPressEvent.Right) = 240 ∧
    List.foldl owl_x_step owl_x_init (List.replicate 200 ButtonPressEvent.Right) ≠ 320 := by
  have h := foldl_replicate_right 200 owl_x_init (by decide) (by decide)
  refine ⟨?_, ?_⟩ <;> rw [h] <;> decide

/-- Claim C5: the LED lookup is a total function on the nine variants (so
deterministic, one fixed color per variant), the color is always a PALETTE
entry, and filling writes that color into every LED cell, preserving the
cell count. -/
theorem claim_C5_led_color_total (e : ButtonPressEvent) (cells : List Rgb) :
    PALETTE.contains (led_task_color e) = true ∧
    (leds_fill cells (led_task_color e)).all (fun c => c == led_task_color e) = true ∧
    (leds_fill cells (led_task_color e)).length = cells.length := by
  refine ⟨?_, leds_fill_all_eq cells (led_task_color e), ?_⟩
  · cases e <;> decide
  · simp [leds_fill]

/-- Claim C6: any event other than Left or Right leaves the position unchanged
and issues no draw call at all. -/
theorem claim_C6_no_redraw (x : Int) (e : ButtonPressEvent)
    (h1 : e ≠ ButtonPressEvent.Left) (h2 : e ≠ ButtonPressEvent.Right) :
    display_task_step x e = (x, []) := by
  cases e <;> first
    | exact absurd rfl h1
    | exact absurd rfl h2
    | simp [display_task_step, owl_x_step]

/-- Witness for claim C6 at position 120 with an Up event. -/
theorem claim_C6_witness : display_task_step 120 ButtonPressEvent.Up = (120, []) :=
  claim_C6_no_redraw 120 ButtonPressEvent.Up (by decide) (by decide)

/-- Claim C7: every completion index 0..8 of the nine-way select maps to a
known event variant; the unreachable arm (modelled as none) is never taken. -/
theorem claim_C7_dispatch_exhaustive (i : Nat) (h : i < 9) :
    (button_task_dispatch i).isSome = true := by
  interval_cases i <;> rfl

/-- Witness for claim C7 at index 0. -/
theorem claim_C7_witness : (button_task_dispatch 0).isSome = true :=
  claim_C7_dispatch_exhaustive 0 (by decide)

/-- Claim C8: the startup registrations of both demos succeed: three
subscribers against capacity 3 plus one publisher against capacity 1 in the
display demo, two subscribers against capacity 2 plus one publisher in the
buttons demo; no unwrap hits the error branch. -/
theorem claim_C8_registrations_succeed :
    step_05_registrations = some ⟨3, 1⟩ ∧ step_04_registrations = some ⟨2, 1⟩ := by
  decide

/-- Claim C9: distinct event variants receive distinct LED colors, and the
nine PALETTE entries are pairwise distinct. -/
theorem claim_C9_palette_injective :
    (∀ a b : ButtonPressEvent, a ≠ b → led_task_color a ≠ led_task_color b) ∧
    PALETTE.Nodup := by
  constructor
  · intro a b; cases a <;> cases b <;> decide
  · decide

/-- Claim C10: in the tasks demo the cycling iterator yields, on iteration n,
exactly the RAINBOW entry at index n mod 6, and it always yields a value, so
the unwrap after next() never fails. -/
theorem claim_C10_rainbow_periodic (n : Nat) :
    cycle_nth RAINBOW RAINBOW n = RAINBOW[n % 6]? ∧
    (cycle_nth RAINBOW RAINBOW n).isSome = true := by
  have h0 := cycle_nth_drop n 0 (by omega)
  rw [List.drop_zero] at h0
  have hn : (0 + n) % 6 = n % 6 := by omega
  rw [hn] at h0
  refine ⟨h0, ?_⟩
  rw [h0]
  have h6 : n % 6 < 6 := Nat.mod_lt n (by decide)
  revert h6
  generalize n % 6 = m
  intro h6
  interval_cases m <;> rfl
